import Mathlib

/-!
Verification development for the Recovery Companion stage-orchestration
engine.  The definitions below are shallow embeddings of the TypeScript
source files:

  * `src/lib/flow.ts`                — stage state machine, parsers, replies
  * `src/lib/services/check-ins`     — check-in creation / parsing
  * `src/lib/services/milestones`    — milestone creation / unlock engine
  * `src/lib/services/conversations` — message queries, context builder
  * `src/lib/ai-stage-detection`     — AI detector / extractors
  * `src/app/api/check-ins/route.ts` — HTTP POST handler
  * `scripts/001_create_tables.sql`  — table constraints

External collaborators (the SQL store, the structured-extraction service)
are modelled by explicit state passing (`List` of rows, with the schema's
CHECK constraints applied on insert) and by `Except`-valued call results.
-/

/-- The six conversation stages (`RecoveryStage` in `types.ts`). -/
inductive RecoveryStage where
  | greeting
  | check_in
  | journal_prompt
  | affirmation
  | reflection
  | milestone_review
deriving DecidableEq

/-- `STAGE_PROGRESSION` table from `flow.ts` (lines 10-17): the fixed
successor of every stage. -/
def STAGE_PROGRESSION : RecoveryStage → RecoveryStage
  | .greeting => .check_in
  | .check_in => .journal_prompt
  | .journal_prompt => .affirmation
  | .affirmation => .reflection
  | .reflection => .milestone_review
  | .milestone_review => .check_in

/-- `getNextStage` from `flow.ts` (lines 224-226): looks the current stage
up in `STAGE_PROGRESSION`. -/
def getNextStage (currentStage : RecoveryStage) : RecoveryStage :=
  STAGE_PROGRESSION currentStage

/-- Number of iterations of `getNextStage` needed to reach `check_in`
from a given stage (used to witness the recurrence of `check_in`). -/
def stepsToCheckIn : RecoveryStage → Nat
  | .greeting => 1
  | .check_in => 5
  | .journal_prompt => 4
  | .affirmation => 3
  | .reflection => 2
  | .milestone_review => 1

lemma stepsToCheckIn_pos (s : RecoveryStage) : 0 < stepsToCheckIn s := by
  cases s <;> simp [stepsToCheckIn]

lemma stepsToCheckIn_le (s : RecoveryStage) : stepsToCheckIn s ≤ 5 := by
  cases s <;> simp [stepsToCheckIn]

lemma iterate_stepsToCheckIn (s : RecoveryStage) :
    getNextStage^[stepsToCheckIn s] s = .check_in := by
  cases s <;> rfl

lemma iterate_five_check_in (j : Nat) :
    getNextStage^[5 * j] RecoveryStage.check_in = .check_in := by
  induction j with
  | zero => rfl
  | succ k ih =>
      have : 5 * (k + 1) = 5 * k + 5 := by ring
      rw [this, Function.iterate_add_apply, show getNextStage^[5] RecoveryStage.check_in = .check_in from rfl, ih]

/-- C1: `getNextStage` is a total function realizing the fixed cycle
greeting → check_in → journal_prompt → affirmation → reflection →
milestone_review → check_in; iterating it from any stage revisits
`check_in` beyond any bound (no terminal stage), and `greeting` is never
the successor of any stage. -/
theorem C1_stage_cycle :
    (getNextStage .greeting = .check_in ∧
     getNextStage .check_in = .journal_prompt ∧
     getNextStage .journal_prompt = .affirmation ∧
     getNextStage .affirmation = .reflection ∧
     getNextStage .reflection = .milestone_review ∧
     getNextStage .milestone_review = .check_in) ∧
    (∀ s : RecoveryStage, getNextStage s ≠ .greeting) ∧
    (∀ (s : RecoveryStage) (n : Nat), ∃ m : Nat, n < m ∧ getNextStage^[m] s = .check_in) := by
  refine ⟨⟨rfl, rfl, rfl, rfl, rfl, rfl⟩, ?_, ?_⟩
  · intro s
    cases s <;> simp [getNextStage, STAGE_PROGRESSION]
  · intro s n
    refine ⟨5 * (n + 1) + stepsToCheckIn s, ?_, ?_⟩
    · have h1 := stepsToCheckIn_pos s
      omega
    · rw [Function.iterate_add_apply, iterate_stepsToCheckIn, iterate_five_check_in]

/-- C1 witness: the theorem applied at concrete stages and bounds. -/
theorem C1_stage_cycle_witness :
    getNextStage .affirmation ≠ .greeting ∧
    (∃ m : Nat, 3 < m ∧ getNextStage^[m] RecoveryStage.greeting = .check_in) :=
  ⟨C1_stage_cycle.2.1 .affirmation, C1_stage_cycle.2.2 .greeting 3⟩

/-! ## Check-in creation (`check-ins` service and `POST /api/check-ins`) -/

/-- `CheckInData` from `types.ts`: the application-level check-in input. -/
structure CheckInData where
  mood : String
  sleepQuality : Int
  energyLevel : Int
  intentions : String
deriving DecidableEq

/-- A row of the `check_ins` table (`scripts/001_create_tables.sql`,
lines 20-28).  `mood` is NOT NULL; `sleep_quality`, `energy_level` and
`intentions` are nullable.  `created_at` timestamps are modelled as `Nat`. -/
structure CheckInRow where
  id : Nat
  user_id : String
  mood : String
  sleep_quality : Option Int
  energy_level : Option Int
  intentions : Option String
  created_at : Nat
deriving DecidableEq

/-- The CHECK constraints of the `check_ins` table: `sleep_quality BETWEEN
1 AND 5` and `energy_level BETWEEN 1 AND 5` (SQL CHECK passes on NULL). -/
def checkInRowConstraints (r : CheckInRow) : Bool :=
  (match r.sleep_quality with
   | none => true
   | some q => decide (1 ≤ q ∧ q ≤ 5)) &&
  (match r.energy_level with
   | none => true
   | some e => decide (1 ≤ e ∧ e ≤ 5))

/-- INSERT into `check_ins`: the database accepts the row only when the
table's CHECK constraints hold, otherwise the statement fails. -/
def insertCheckInRow (db : List CheckInRow) (r : CheckInRow) :
    Except String (List CheckInRow) :=
  if checkInRowConstraints r then .ok (db ++ [r]) else .error "check constraint violation"

/-- `createCheckIn` from the check-in service (`src/unnamed/part_004`,
lines 9-31): rejects empty mood or out-of-range sleep/energy with a
validation error before any insert; a failing insert is rewrapped as
"Failed to create check-in".  `newId`/`now` model SERIAL and NOW(). -/
def createCheckIn (userId : String) (data : CheckInData) (newId now : Nat)
    (db : List CheckInRow) : Except String (CheckInRow × List CheckInRow) :=
  if data.mood = "" ∨ data.sleepQuality < 1 ∨ 5 < data.sleepQuality ∨
      data.energyLevel < 1 ∨ 5 < data.energyLevel then
    .error "Invalid check-in data. Mood, sleep quality (1-5), and energy level (1-5) are required."
  else
    let row : CheckInRow :=
      { id := newId, user_id := userId, mood := data.mood,
        sleep_quality := some data.sleepQuality,
        energy_level := some data.energyLevel,
        intentions := some data.intentions, created_at := now }
    match insertCheckInRow db row with
    | .ok db2 => .ok (row, db2)
    | .error _ => .error "Failed to create check-in"

/-- Request body of `POST /api/check-ins`: every field may be absent from
the JSON payload (absent fields are inserted as NULL). -/
structure CheckInPostBody where
  mood : Option String
  sleepQuality : Option Int
  energyLevel : Option Int
  intentions : Option String
deriving DecidableEq

/-- Response of the check-ins route: HTTP status, optional error body,
optional created row. -/
structure CheckInApiResponse where
  status : Nat
  error : Option String
  checkIn : Option CheckInRow
deriving DecidableEq

/-- `POST` handler of `src/app/api/check-ins/route.ts` (lines 38-74):
401 without a user, 400 when `mood` is falsy, otherwise a direct INSERT
of the four body fields (no range validation in the handler); any thrown
error — including a CHECK-constraint violation — is caught and returned
as status 500 "Failed to create check-in". -/
def postCheckIns (user : Option String) (body : CheckInPostBody)
    (newId now : Nat) (db : List CheckInRow) :
    CheckInApiResponse × List CheckInRow :=
  match user with
  | none => ({ status := 401, error := some "Unauthorized", checkIn := none }, db)
  | some userId =>
    match body.mood with
    | none => ({ status := 400, error := some "Missing required fields", checkIn := none }, db)
    | some mood =>
      if mood = "" then
        ({ status := 400, error := some "Missing required fields", checkIn := none }, db)
      else
        let row : CheckInRow :=
          { id := newId, user_id := userId, mood := mood,
            sleep_quality := body.sleepQuality,
            energy_level := body.energyLevel,
            intentions := body.intentions, created_at := now }
        match insertCheckInRow db row with
        | .ok db2 => ({ status := 200, error := none, checkIn := some row }, db2)
        | .error _ =>
            ({ status := 500, error := some "Failed to create check-in", checkIn := none }, db)

/-- C2 counterexample: at the HTTP POST boundary an out-of-range
sleep value does not produce a validation error.  The handler performs no
range check: the insert fails on the database CHECK constraint and the
route answers with the generic 500 "Failed to create check-in" (the
route's validation-error response is the 400 "Missing required fields").
No record is persisted. -/
theorem C2_post_no_validation_error :
    postCheckIns (some "user-1")
        { mood := some "calm", sleepQuality := some 7, energyLevel := some 3,
          intentions := none } 1 0 [] =
      ({ status := 500, error := some "Failed to create check-in", checkIn := none }, []) ∧
    (500 : Nat) ≠ 400 := by
  constructor
  · rfl
  · decide

/-- C2 (amended): valid inputs (non-empty mood, sleep and energy in
[1,5]) succeed at both creation boundaries and persist exactly the given
values; out-of-range values never persist a record and are never clamped —
`createCheckIn` rejects them with its validation error before any insert,
while the POST handler lets the database CHECK constraint reject the
insert and returns a generic 500 failure instead of a validation error. -/
theorem C2_check_in_validation :
    (∀ (userId : String) (d : CheckInData) (newId now : Nat) (db : List CheckInRow),
      d.mood ≠ "" → 1 ≤ d.sleepQuality → d.sleepQuality ≤ 5 →
      1 ≤ d.energyLevel → d.energyLevel ≤ 5 →
      ∃ row, createCheckIn userId d newId now db = .ok (row, db ++ [row]) ∧
        row.mood = d.mood ∧ row.sleep_quality = some d.sleepQuality ∧
        row.energy_level = some d.energyLevel ∧ row.intentions = some d.intentions) ∧
    (∀ (userId : String) (d : CheckInData) (newId now : Nat) (db : List CheckInRow),
      (d.sleepQuality < 1 ∨ 5 < d.sleepQuality ∨ d.energyLevel < 1 ∨ 5 < d.energyLevel) →
      createCheckIn userId d newId now db =
        .error "Invalid check-in data. Mood, sleep quality (1-5), and energy level (1-5) are required.") ∧
    (∀ (userId mood : String) (intentions : Option String) (sq el : Int)
        (newId now : Nat) (db : List CheckInRow),
      mood ≠ "" → 1 ≤ sq → sq ≤ 5 → 1 ≤ el → el ≤ 5 →
      ∃ row, postCheckIns (some userId)
          { mood := some mood, sleepQuality := some sq, energyLevel := some el,
            intentions := intentions } newId now db =
        ({ status := 200, error := none, checkIn := some row }, db ++ [row]) ∧
        row.mood = mood ∧ row.sleep_quality = some sq ∧ row.energy_level = some el ∧
        row.intentions = intentions) ∧
    (∀ (userId mood : String) (intentions : Option String) (sq el : Int)
        (newId now : Nat) (db : List CheckInRow),
      mood ≠ "" → (sq < 1 ∨ 5 < sq ∨ el < 1 ∨ 5 < el) →
      postCheckIns (some userId)
          { mood := some mood, sleepQuality := some sq, energyLevel := some el,
            intentions := intentions } newId now db =
        ({ status := 500, error := some "Failed to create check-in", checkIn := none }, db)) := by
  refine ⟨?_, ?_, ?_, ?_⟩
  · intro userId d newId now db hm h1 h2 h3 h4
    refine ⟨{ id := newId, user_id := userId, mood := d.mood,
              sleep_quality := some d.sleepQuality, energy_level := some d.energyLevel,
              intentions := some d.intentions, created_at := now }, ?_, rfl, rfl, rfl, rfl⟩
    rw [createCheckIn]
    rw [if_neg (by push_neg; exact ⟨hm, by omega, by omega, by omega, by omega⟩)]
    have hc : checkInRowConstraints
        { id := newId, user_id := userId, mood := d.mood,
          sleep_quality := some d.sleepQuality, energy_level := some d.energyLevel,
          intentions := some d.intentions, created_at := now } = true := by
      simp [checkInRowConstraints]
      omega
    simp [insertCheckInRow, hc]
  · intro userId d newId now db h
    rw [createCheckIn, if_pos]
    rcases h with h | h | h | h
    · exact Or.inr (Or.inl h)
    · exact Or.inr (Or.inr (Or.inl h))
    · exact Or.inr (Or.inr (Or.inr (Or.inl h)))
    · exact Or.inr (Or.inr (Or.inr (Or.inr h)))
  · intro userId mood intentions sq el newId now db hm h1 h2 h3 h4
    refine ⟨{ id := newId, user_id := userId, mood := mood,
              sleep_quality := some sq, energy_level := some el,
              intentions := intentions, created_at := now }, ?_, rfl, rfl, rfl, rfl⟩
    rw [postCheckIns]
    simp only
    rw [if_neg hm]
    have hc : checkInRowConstraints
        { id := newId, user_id := userId, mood := mood,
          sleep_quality := some sq, energy_level := some el,
          intentions := intentions, created_at := now } = true := by
      simp [checkInRowConstraints]
      omega
    simp [insertCheckInRow, hc]
  · intro userId mood intentions sq el newId now db hm h
    rw [postCheckIns]
    simp only
    rw [if_neg hm]
    have hc : checkInRowConstraints
        { id := newId, user_id := userId, mood := mood,
          sleep_quality := some sq, energy_level := some el,
          intentions := intentions, created_at := now } = false := by
      simp [checkInRowConstraints]
      omega
    simp [insertCheckInRow, hc]

/-- C2 witness: the amended theorem applied at concrete inputs. -/
theorem C2_check_in_validation_witness :
    (∃ row, createCheckIn "u"
        { mood := "calm", sleepQuality := 4, energyLevel := 2, intentions := "rest" }
        1 10 [] = .ok (row, [] ++ [row]) ∧
      row.mood = "calm" ∧ row.sleep_quality = some 4 ∧
      row.energy_level = some 2 ∧ row.intentions = some "rest") ∧
    createCheckIn "u"
        { mood := "calm", sleepQuality := 9, energyLevel := 2, intentions := "rest" }
        1 10 [] =
      .error "Invalid check-in data. Mood, sleep quality (1-5), and energy level (1-5) are required." ∧
    postCheckIns (some "u")
        { mood := some "calm", sleepQuality := some 0, energyLevel := some 3, intentions := none }
        1 10 [] =
      ({ status := 500, error := some "Failed to create check-in", checkIn := none }, []) :=
  ⟨C2_check_in_validation.1 "u" _ 1 10 [] (by decide) (by decide) (by decide) (by decide) (by decide),
   C2_check_in_validation.2.1 "u" _ 1 10 [] (Or.inr (Or.inl (by decide))),
   C2_check_in_validation.2.2.2 "u" "calm" none 0 3 1 10 [] (by decide) (Or.inl (by decide))⟩

/-! ## AI stage detection and extraction (`src/unnamed/part_007`)

The `generateObject` call against the structured-extraction service is
modelled by an `Except`-valued parameter: `.ok` carries the JSON object
conforming to the zod schema, `.error` models a thrown service failure. -/

/-- Per-stage completion criteria (`STAGE_CRITERIA`, part_007 lines 18-68). -/
structure StageCriteria where
  description : String
  minMessages : Nat
  criteria : List String
deriving DecidableEq

/-- The `STAGE_CRITERIA` table of part_007. -/
def STAGE_CRITERIA : RecoveryStage → StageCriteria
  | .greeting =>
    { description := "User has been welcomed and is ready to proceed",
      minMessages := 1,
      criteria := ["User acknowledged the greeting or expressed readiness to start"] }
  | .check_in =>
    { description := "Daily wellness check-in data has been gathered",
      minMessages := 2,
      criteria :=
        ["User shared their current mood/emotional state",
         "User mentioned their sleep quality (can be numeric or descriptive)",
         "User mentioned their energy level (can be numeric or descriptive)",
         "User shared their intentions/goals for the day"] }
  | .journal_prompt =>
    { description := "User has been prompted to journal and responded",
      minMessages := 2,
      criteria :=
        ["User explicitly agreed to journal",
         "User shared a reflective thought or declined journaling"] }
  | .affirmation =>
    { description := "Affirmation has been delivered and acknowledged",
      minMessages := 1,
      criteria :=
        ["User acknowledged the affirmation (directly or implicitly)",
         "User engaged with the affirmation message"] }
  | .reflection =>
    { description := "User has reflected on their growth and progress",
      minMessages := 2,
      criteria :=
        ["User shared thoughts about positive changes or growth",
         "User discussed habits, perspective shifts, or self-awareness",
         "User expressed readiness to move forward"] }
  | .milestone_review =>
    { description := "User has reviewed progress and milestones",
      minMessages := 2,
      criteria :=
        ["User discussed their achievements or milestones",
         "User expressed interest in setting new goals or continuing",
         "User is ready for the next check-in"] }

/-- JSON object of `StageCompletionSchema` (part_007 lines 73-80). -/
structure StageCompletionResult where
  currentStage : String
  criteriaMetList : List String
  requiredCriteria : Nat
  criteriaMet : Nat
  shouldTransition : Bool
  reasoning : String
deriving DecidableEq

/-- Message role. -/
inductive Role where
  | user
  | assistant
deriving DecidableEq

/-- A row of the `messages` table / `Message` of `types.ts`. -/
structure Message where
  id : Nat
  conversation_id : Nat
  role : Role
  content : String
  created_at : Nat
deriving DecidableEq

/-- `shouldTransitionStageAI` (part_007 lines 109-171): below the stage's
minimum message count the decision short-circuits to `false`; otherwise it
is read off the structured-extraction result; a thrown service failure is
caught and mapped to `(false, "Error during AI stage detection, keeping
current stage")`. -/
def shouldTransitionStageAI (stage : RecoveryStage) (recentMessages : List Message)
    (messageCount : Nat) (aiResult : Except String StageCompletionResult) :
    Bool × String :=
  let stageCriteria := STAGE_CRITERIA stage
  if messageCount < stageCriteria.minMessages then
    let mn := stageCriteria.minMessages
    (false, s!"Need at least {mn} messages in this stage (currently {messageCount})")
  else
    match aiResult with
    | .ok robj => (robj.shouldTransition, robj.reasoning)
    | .error _ => (false, "Error during AI stage detection, keeping current stage")

/-- C4: a failing structured-extraction call never produces a transition:
`shouldTransitionStageAI` returns `shouldTransition = false`, and whenever
the service was actually consulted (message count at or above the stage
minimum) the rationale is the fixed failure-cause message. -/
theorem C4_detector_fail_safe :
    (∀ (stage : RecoveryStage) (msgs : List Message) (n : Nat) (e : String),
      (shouldTransitionStageAI stage msgs n (.error e)).1 = false) ∧
    (∀ (stage : RecoveryStage) (msgs : List Message) (n : Nat) (e : String),
      (STAGE_CRITERIA stage).minMessages ≤ n →
      shouldTransitionStageAI stage msgs n (.error e) =
        (false, "Error during AI stage detection, keeping current stage")) := by
  constructor
  · intro stage msgs n e
    rw [shouldTransitionStageAI]
    by_cases h : n < (STAGE_CRITERIA stage).minMessages
    · simp [h]
    · simp [h]
  · intro stage msgs n e h
    rw [shouldTransitionStageAI]
    simp [Nat.not_lt.mpr h]

/-- C4 witness: the theorem applied at a concrete stage, window and error. -/
theorem C4_detector_fail_safe_witness :
    (shouldTransitionStageAI .check_in [] 0 (.error "timeout")).1 = false ∧
    shouldTransitionStageAI .check_in [] 3 (.error "timeout") =
      (false, "Error during AI stage detection, keeping current stage") :=
  ⟨C4_detector_fail_safe.1 .check_in [] 0 "timeout",
   C4_detector_fail_safe.2 .check_in [] 3 "timeout" (by decide)⟩

/-- JSON object of `CheckInDataSchema` (part_007 lines 85-92); nullable
fields are `Option`s, `confidence` is the 0-100 score. -/
structure CheckInExtraction where
  mood : Option String
  sleepQuality : Option Int
  energyLevel : Option Int
  intentions : Option String
  hasAllRequiredData : Bool
  confidence : Int
deriving DecidableEq

/-- `extractCheckInDataAI` (part_007 lines 176-240): a record is returned
only when `hasAllRequiredData` is set, `confidence >= 70` and the three
required fields are truthy (non-null, non-empty mood, non-zero numbers);
`intentions` falls back to the placeholder; a thrown service failure is
caught and yields `none`. -/
def extractCheckInDataAI (aiResult : Except String CheckInExtraction) :
    Option CheckInData :=
  match aiResult with
  | .error _ => none
  | .ok o =>
    match o.mood, o.sleepQuality, o.energyLevel with
    | some m, some sq, some el =>
      if o.hasAllRequiredData ∧ 70 ≤ o.confidence ∧ m ≠ "" ∧ sq ≠ 0 ∧ el ≠ 0 then
        some { mood := m, sleepQuality := sq, energyLevel := el,
               intentions :=
                 match o.intentions with
                 | some i => if i = "" then "No specific intentions set" else i
                 | none => "No specific intentions set" }
      else none
    | _, _, _ => none

/-- `JournalData` from `types.ts`. -/
structure JournalData where
  title : String
  content : String
deriving DecidableEq

/-- JSON object of `JournalDataSchema` (part_007 lines 97-104). -/
structure JournalExtraction where
  hasJournalContent : Bool
  title : Option String
  content : Option String
  wordCount : Int
  isReflective : Bool
  confidence : Int
deriving DecidableEq

/-- `extractJournalDataAI` (part_007 lines 245-306): a record is returned
only when the content flag and reflectivity flag are set, `confidence >=
70`, the content is truthy, at least 10 words and at least 50 characters;
the title falls back to "Journal Entry"; a thrown service failure yields
`none`. -/
def extractJournalDataAI (aiResult : Except String JournalExtraction) :
    Option JournalData :=
  match aiResult with
  | .error _ => none
  | .ok o =>
    match o.content with
    | some c =>
      if o.hasJournalContent ∧ o.isReflective ∧ 70 ≤ o.confidence ∧ c ≠ "" ∧
          10 ≤ o.wordCount ∧ 50 ≤ c.length then
        some { title :=
                 match o.title with
                 | some t => if t = "" then "Journal Entry" else t
                 | none => "Journal Entry",
               content := c }
      else none
    | none => none

/-- C3: both extractors gate persistence on sufficiency AND confidence
AND required-field completeness: a record is produced only when the
sufficiency flag is true, confidence ≥ 70 and every required field is
non-null; conversely, confidence < 70 or a missing required field yields
no record even when the sufficiency flag is true. -/
theorem C3_extraction_confidence_gate :
    (∀ (o : CheckInExtraction) (rec : CheckInData),
      extractCheckInDataAI (.ok o) = some rec →
      o.hasAllRequiredData = true ∧ 70 ≤ o.confidence ∧
      o.mood ≠ none ∧ o.sleepQuality ≠ none ∧ o.energyLevel ≠ none) ∧
    (∀ o : CheckInExtraction,
      o.confidence < 70 ∨ o.mood = none ∨ o.sleepQuality = none ∨ o.energyLevel = none →
      extractCheckInDataAI (.ok o) = none) ∧
    (∀ (o : JournalExtraction) (rec : JournalData),
      extractJournalDataAI (.ok o) = some rec →
      o.hasJournalContent = true ∧ o.isReflective = true ∧ 70 ≤ o.confidence ∧
      o.content ≠ none) ∧
    (∀ o : JournalExtraction,
      o.confidence < 70 ∨ o.content = none →
      extractJournalDataAI (.ok o) = none) := by
  refine ⟨?_, ?_, ?_, ?_⟩
  · intro o rec h
    rw [extractCheckInDataAI] at h
    rcases hm : o.mood with _ | m <;> rcases hs : o.sleepQuality with _ | sq <;>
      rcases he : o.energyLevel with _ | el <;> simp [hm, hs, he] at h
    rcases h with ⟨⟨h1, h2, _⟩, _⟩
    exact ⟨h1, h2, by simp [hm], by simp [hs], by simp [he]⟩
  · intro o h
    rcases hm : o.mood with _ | m
    · simp [extractCheckInDataAI, hm]
    · rcases hs : o.sleepQuality with _ | sq
      · simp [extractCheckInDataAI, hm, hs]
      · rcases he : o.energyLevel with _ | el
        · simp [extractCheckInDataAI, hm, hs, he]
        · have hconf : o.confidence < 70 := by
            rcases h with h | h | h | h
            · exact h
            · simp [hm] at h
            · simp [hs] at h
            · simp [he] at h
          have hnot : ¬(o.hasAllRequiredData ∧ 70 ≤ o.confidence ∧
              m ≠ "" ∧ sq ≠ 0 ∧ el ≠ 0) := by
            intro hcon
            exact absurd hcon.2.1 (not_le.mpr hconf)
          simp [extractCheckInDataAI, hm, hs, he, hnot]
  · intro o rec h
    rw [extractJournalDataAI] at h
    rcases hc : o.content with _ | c <;> simp [hc] at h
    rcases h with ⟨⟨h1, h2, h3, _⟩, _⟩
    exact ⟨h1, h2, h3, by simp [hc]⟩
  · intro o h
    rcases hc : o.content with _ | c
    · simp [extractJournalDataAI, hc]
    · have hconf : o.confidence < 70 := by
        rcases h with h | h
        · exact h
        · simp [hc] at h
      have hnot : ¬(o.hasJournalContent ∧ o.isReflective ∧ 70 ≤ o.confidence ∧
          c ≠ "" ∧ 10 ≤ o.wordCount ∧ 50 ≤ c.length) := by
        intro hcon
        exact absurd hcon.2.2.1 (not_le.mpr hconf)
      simp [extractJournalDataAI, hc, hnot]

/-- C3 witness: the gate theorem applied to concrete service responses —
an over-confident but incomplete check-in response and a sufficient but
under-confident journal response both yield no record. -/
theorem C3_extraction_confidence_gate_witness :
    extractCheckInDataAI (.ok
      { mood := some "calm", sleepQuality := none, energyLevel := some 4,
        intentions := none, hasAllRequiredData := true, confidence := 95 }) = none ∧
    extractJournalDataAI (.ok
      { hasJournalContent := true, title := some "Growth",
        content := some "Today I noticed real progress in how I handle stress and setbacks.",
        wordCount := 12, isReflective := true, confidence := 40 }) = none :=
  ⟨C3_extraction_confidence_gate.2.1
      { mood := some "calm", sleepQuality := none, energyLevel := some 4,
        intentions := none, hasAllRequiredData := true, confidence := 95 }
      (Or.inr (Or.inr (Or.inl rfl))),
   C3_extraction_confidence_gate.2.2.2
      { hasJournalContent := true, title := some "Growth",
        content := some "Today I noticed real progress in how I handle stress and setbacks.",
        wordCount := 12, isReflective := true, confidence := 40 }
      (Or.inl (by decide))⟩

/-! ## Milestone engine (`src/unnamed/part_006` and the `milestones` table)

The `milestones` table (`scripts/001_create_tables.sql`, lines 30-41) has
`id SERIAL PRIMARY KEY`, NOT NULL `user_id`/`type`/`name`, `progress`
CHECK BETWEEN 0 AND 100 with default 0, `unlocked` default FALSE and
nullable `unlocked_at`.  It has **no** UNIQUE constraint on
`(user_id, type)`, so inserts of duplicate type keys are accepted; the
model below therefore appends rows unconditionally once the service-level
validations pass. -/

/-- A row of the `milestones` table / `Milestone` of `types.ts`. -/
structure MilestoneRow where
  id : Nat
  user_id : String
  type : String
  name : String
  description : Option String
  progress : Int
  unlocked : Bool
  unlocked_at : Option Nat
  created_at : Nat
deriving DecidableEq

/-- `MilestoneData` from `types.ts` (optional description and progress). -/
structure MilestoneData where
  type : String
  name : String
  description : Option String
  progress : Option Int
deriving DecidableEq

/-- `createMilestone` (part_006 lines 12-38): validates truthy type/name
and progress in [0,100], then INSERTs with the schema defaults
`unlocked = FALSE`, `unlocked_at = NULL`. -/
def createMilestone (userId : String) (data : MilestoneData) (newId now : Nat)
    (db : List MilestoneRow) : Except String (MilestoneRow × List MilestoneRow) :=
  let progress := data.progress.getD 0
  if data.type = "" ∨ data.name = "" then
    .error "Milestone type and name are required."
  else if progress < 0 ∨ 100 < progress then
    .error "Milestone progress must be between 0 and 100."
  else
    let row : MilestoneRow :=
      { id := newId, user_id := userId, type := data.type, name := data.name,
        description := data.description, progress := progress,
        unlocked := false, unlocked_at := none, created_at := now }
    .ok (row, db ++ [row])

/-- `updateMilestoneProgress` (part_006 lines 43-75): validates the range,
then updates the matching `(id, user_id)` row, unlocking it exactly when
`progress >= 100` (keeping the old `unlocked_at` otherwise); errors when
no row matches.  `progressUpdate` is the per-row effect of its UPDATE
statement. -/
def progressUpdate (milestoneId : Nat) (userId : String) (progress : Int)
    (now : Nat) (r : MilestoneRow) : MilestoneRow :=
  if r.id = milestoneId ∧ r.user_id = userId then
    { r with progress := progress,
             unlocked := decide (100 ≤ progress),
             unlocked_at := if 100 ≤ progress then some now else r.unlocked_at }
  else r

def updateMilestoneProgress (milestoneId : Nat) (userId : String) (progress : Int)
    (now : Nat) (db : List MilestoneRow) :
    Except String (MilestoneRow × List MilestoneRow) :=
  if progress < 0 ∨ 100 < progress then
    .error "Progress must be between 0 and 100."
  else
    let db2 := db.map (progressUpdate milestoneId userId progress now)
    match db2.find? fun r => decide (r.id = milestoneId ∧ r.user_id = userId) with
    | some row => .ok (row, db2)
    | none => .error "Milestone not found or unauthorized"

/-- `unlockMilestone` (part_006 lines 80-101): sets `unlocked = true`,
`unlocked_at = NOW()` and `progress = 100` on the matching row; errors
when no row matches.  `unlockUpdate` is the per-row effect of its UPDATE
statement. -/
def unlockUpdate (milestoneId : Nat) (userId : String) (now : Nat)
    (r : MilestoneRow) : MilestoneRow :=
  if r.id = milestoneId ∧ r.user_id = userId then
    { r with unlocked := true, unlocked_at := some now, progress := 100 }
  else r

def unlockMilestone (milestoneId : Nat) (userId : String) (now : Nat)
    (db : List MilestoneRow) : Except String (MilestoneRow × List MilestoneRow) :=
  let db2 := db.map (unlockUpdate milestoneId userId now)
  match db2.find? fun r => decide (r.id = milestoneId ∧ r.user_id = userId) with
  | some row => .ok (row, db2)
  | none => .error "Milestone not found or unauthorized"

/-- The pre-read of `checkAndCreateAutoMilestones`: the type keys of the
user's existing milestones (`getUserMilestones`). -/
def preReadTypes (db : List MilestoneRow) (userId : String) : List String :=
  (db.filter fun r => decide (r.user_id = userId)).map (·.type)

/-- The six auto-milestone threshold checks of `checkAndCreateAutoMilestones`
(part_006 lines 255-319), in source order: condition crossed, type key,
display name, description. -/
def autoMilestoneSpecs (checkInStreak journalCount : Nat) :
    List (Bool × String × String × String) :=
  [ (decide (7 ≤ checkInStreak), "check_in_streak_7", "Week of Consistency",
       "Complete check-ins for 7 consecutive days"),
    (decide (30 ≤ checkInStreak), "check_in_streak_30", "Month of Dedication",
       "Complete check-ins for 30 consecutive days"),
    (decide (5 ≤ journalCount), "journal_entries_5", "Reflection Beginner",
       "Write 5 journal entries"),
    (decide (25 ≤ journalCount), "journal_entries_25", "Journaling Enthusiast",
       "Write 25 journal entries"),
    (decide (1 ≤ checkInStreak), "first_check_in", "First Steps",
       "Complete your first check-in"),
    (decide (1 ≤ journalCount), "first_journal", "Beginning to Reflect",
       "Write your first journal entry") ]

/-- The sequential body of `checkAndCreateAutoMilestones`: for each
threshold crossed whose type key is absent from the *pre-read* set,
create the milestone at progress 100 and immediately unlock it.  A thrown
error propagates to the function's single catch, which abandons the
remaining steps and leaves the rows committed so far. -/
def runAutoSteps (userId : String) (typesSet : List String) (now : Nat) :
    List (Bool × String × String × String) → Nat → List MilestoneRow → List MilestoneRow
  | [], _, db => db
  | (cond, ty, nm, ds) :: rest, nextId, db =>
    if cond && !(typesSet.contains ty) then
      match createMilestone userId
          { type := ty, name := nm, description := some ds, progress := some 100 }
          nextId now db with
      | .error _ => db
      | .ok (row, db1) =>
        match unlockMilestone row.id userId now db1 with
        | .error _ => db1
        | .ok (_, db2) => runAutoSteps userId typesSet now rest (nextId + 1) db2
    else runAutoSteps userId typesSet now rest nextId db

/-- `checkAndCreateAutoMilestones` (part_006 lines 241-326): pre-reads the
user's existing milestone type keys once, then runs the six guarded
create-and-unlock steps against that one pre-read. -/
def checkAndCreateAutoMilestones (userId : String) (checkInStreak journalCount : Nat)
    (nextId now : Nat) (db : List MilestoneRow) : List MilestoneRow :=
  runAutoSteps userId (preReadTypes db userId) now
    (autoMilestoneSpecs checkInStreak journalCount) nextId db

/-- Two invocations of `checkAndCreateAutoMilestones` interleaved so that
both pre-reads happen before either write sequence — the schedule allowed
by concurrent turns, since nothing in the schema serializes them. -/
def twoConcurrentAutoRuns (userId : String) (checkInStreak journalCount : Nat)
    (now : Nat) (db : List MilestoneRow) : List MilestoneRow :=
  let typesSet := preReadTypes db userId
  let db1 := runAutoSteps userId typesSet now
    (autoMilestoneSpecs checkInStreak journalCount) 1 db
  runAutoSteps userId typesSet now
    (autoMilestoneSpecs checkInStreak journalCount) 101 db1

/-- Shape of a successful `createMilestone`: the row is appended and starts
with the schema defaults `unlocked = FALSE`, `unlocked_at = NULL`. -/
lemma createMilestone_ok (userId : String) (d : MilestoneData) (newId now : Nat)
    (db : List MilestoneRow) (row : MilestoneRow) (db' : List MilestoneRow)
    (h : createMilestone userId d newId now db = .ok (row, db')) :
    db' = db ++ [row] ∧ row.unlocked = false ∧ row.user_id = userId ∧
      row.type = d.type ∧ row.id = newId ∧ row.unlocked_at = none := by
  rw [createMilestone] at h
  split at h
  · cases h
  · split at h
    · cases h
    · rw [Except.ok.injEq, Prod.mk.injEq] at h
      obtain ⟨h1, h2⟩ := h
      subst h1
      subst h2
      exact ⟨rfl, rfl, rfl, rfl, rfl, rfl⟩

/-- Shape of a successful `unlockMilestone`: the resulting table is the
row-wise `unlockUpdate` of the input table. -/
lemma unlockMilestone_ok_db (i : Nat) (u : String) (now : Nat) (db : List MilestoneRow)
    (row : MilestoneRow) (db' : List MilestoneRow)
    (h : unlockMilestone i u now db = .ok (row, db')) :
    db' = db.map (unlockUpdate i u now) := by
  simp only [unlockMilestone] at h
  cases hf : (db.map (unlockUpdate i u now)).find?
      (fun r => decide (r.id = i ∧ r.user_id = u)) with
  | none => rw [hf] at h; cases h
  | some r2 =>
    rw [hf] at h
    rw [Except.ok.injEq, Prod.mk.injEq] at h
    exact h.2.symm

/-- `unlockMilestone` succeeds whenever a matching row exists. -/
lemma unlockMilestone_mem_ok (i : Nat) (u : String) (now : Nat) (db : List MilestoneRow)
    (r : MilestoneRow) (hr : r ∈ db) (hid : r.id = i) (hu : r.user_id = u) :
    ∃ row, unlockMilestone i u now db = .ok (row, db.map (unlockUpdate i u now)) := by
  have hmem : unlockUpdate i u now r ∈ db.map (unlockUpdate i u now) :=
    List.mem_map_of_mem _ hr
  have hp : (unlockUpdate i u now r).id = i ∧ (unlockUpdate i u now r).user_id = u := by
    rw [unlockUpdate, if_pos ⟨hid, hu⟩]
    exact ⟨hid, hu⟩
  cases hf : (db.map (unlockUpdate i u now)).find?
      (fun r => decide (r.id = i ∧ r.user_id = u)) with
  | none =>
    exfalso
    have := List.find?_eq_none.mp hf _ hmem
    simp [hp.1, hp.2] at this
  | some row =>
    refine ⟨row, ?_⟩
    simp only [unlockMilestone]
    rw [hf]

lemma preReadTypes_cons (r : MilestoneRow) (t : List MilestoneRow) (u : String) :
    preReadTypes (r :: t) u =
      (if r.user_id = u then [r.type] else []) ++ preReadTypes t u := by
  by_cases h : r.user_id = u <;> simp [preReadTypes, List.filter_cons, h]

lemma preReadTypes_append (db1 db2 : List MilestoneRow) (u : String) :
    preReadTypes (db1 ++ db2) u = preReadTypes db1 u ++ preReadTypes db2 u := by
  simp [preReadTypes, List.filter_append]

/-- `unlockUpdate` touches neither `user_id` nor `type`, so the pre-read
set is invariant under it. -/
lemma preReadTypes_map_unlockUpdate (i : Nat) (uu : String) (now : Nat)
    (db : List MilestoneRow) (u : String) :
    preReadTypes (db.map (unlockUpdate i uu now)) u = preReadTypes db u := by
  induction db with
  | nil => rfl
  | cons r t ih =>
    have h1 : (unlockUpdate i uu now r).user_id = r.user_id := by
      rw [unlockUpdate]; split <;> rfl
    have h2 : (unlockUpdate i uu now r).type = r.type := by
      rw [unlockUpdate]; split <;> rfl
    rw [List.map_cons, preReadTypes_cons, preReadTypes_cons, h1, h2, ih]

/-- The write sequence of `checkAndCreateAutoMilestones` only ever adds
milestone rows: the pre-read set grows monotonically along it. -/
lemma runAutoSteps_preRead_mono (uu u : String) (now : Nat) :
    ∀ (specs : List (Bool × String × String × String)) (ts : List String)
      (nextId : Nat) (db : List MilestoneRow),
      preReadTypes db u ⊆ preReadTypes (runAutoSteps uu ts now specs nextId db) u
  | [], ts, nextId, db => by
    rw [runAutoSteps]
    exact fun x hx => hx
  | (cond, ty, nm, ds) :: rest, ts, nextId, db => by
    rw [runAutoSteps]
    split
    · split
      · exact fun x hx => hx
      · rename_i row db1 hcm
        obtain ⟨hdb1, -, -, -, -, -⟩ := createMilestone_ok _ _ _ _ _ _ _ hcm
        subst hdb1
        split
        · intro x hx
          rw [preReadTypes_append]
          exact List.mem_append_left _ hx
        · rename_i row2 db2 hum
          have hdb2 := unlockMilestone_ok_db _ _ _ _ _ _ hum
          subst hdb2
          intro x hx
          refine runAutoSteps_preRead_mono uu u now rest ts (nextId + 1) _ ?_
          rw [preReadTypes_map_unlockUpdate, preReadTypes_append]
          exact List.mem_append_left _ hx
    · exact runAutoSteps_preRead_mono uu u now rest ts nextId db

/-- The row inserted by one auto-milestone step, before its unlock. -/
def autoRow (uu ty nm ds : String) (nextId now : Nat) : MilestoneRow :=
  { id := nextId, user_id := uu, type := ty, name := nm, description := some ds,
    progress := 100, unlocked := false, unlocked_at := none, created_at := now }

lemma createMilestone_autoRow (uu ty nm ds : String) (nextId now : Nat)
    (db : List MilestoneRow) (hty : ty ≠ "") (hnm : nm ≠ "") :
    createMilestone uu { type := ty, name := nm, description := some ds, progress := some 100 }
        nextId now db =
      .ok (autoRow uu ty nm ds nextId now, db ++ [autoRow uu ty nm ds nextId now]) := by
  simp [createMilestone, autoRow, hty, hnm]

/-- After the write sequence runs against a pre-read `ts` drawn from the
current table, the type key of every crossed threshold is present among
the user's rows (it was either already there or was just inserted). -/
lemma runAutoSteps_types_complete (uu : String) (now : Nat) :
    ∀ (specs : List (Bool × String × String × String)) (ts : List String)
      (nextId : Nat) (db : List MilestoneRow),
      (∀ x ∈ specs, x.2.1 ≠ "" ∧ x.2.2.1 ≠ "") →
      (∀ t ∈ ts, t ∈ preReadTypes db uu) →
      ∀ x ∈ specs, x.1 = true →
        x.2.1 ∈ preReadTypes (runAutoSteps uu ts now specs nextId db) uu
  | [], ts, nextId, db => by
    intro _ _ x hx
    cases hx
  | (cond, ty, nm, ds) :: rest, ts, nextId, db => by
    intro hnames hts x hx hcond
    have hhead := hnames (cond, ty, nm, ds) (List.mem_cons_self _ _)
    have hcm := createMilestone_autoRow uu ty nm ds nextId now db hhead.1 hhead.2
    rw [runAutoSteps]
    by_cases hg : (cond && !ts.contains ty) = true
    · rw [if_pos hg]
      split
      · rename_i e heq
        rw [hcm] at heq
        cases heq
      · rename_i row db1 heq
        rw [hcm, Except.ok.injEq, Prod.mk.injEq] at heq
        obtain ⟨hrow, hdb1⟩ := heq
        subst hrow
        subst hdb1
        obtain ⟨row2, hum⟩ := unlockMilestone_mem_ok (autoRow uu ty nm ds nextId now).id
          uu now (db ++ [autoRow uu ty nm ds nextId now]) (autoRow uu ty nm ds nextId now)
          (List.mem_append_right _ (List.mem_singleton.mpr rfl)) rfl rfl
        split
        · rename_i e2 heq2
          rw [hum] at heq2
          cases heq2
        · rename_i row2' db2 heq2
          rw [hum, Except.ok.injEq, Prod.mk.injEq] at heq2
          obtain ⟨-, hdb2⟩ := heq2
          subst hdb2
          have hpre : ∀ t, (t ∈ preReadTypes db uu ∨ t = ty) →
              t ∈ preReadTypes ((db ++ [autoRow uu ty nm ds nextId now]).map
                (unlockUpdate (autoRow uu ty nm ds nextId now).id uu now)) uu := by
            intro t ht
            rw [preReadTypes_map_unlockUpdate, preReadTypes_append, preReadTypes_cons]
            rcases ht with ht | ht
            · exact List.mem_append_left _ ht
            · subst ht
              refine List.mem_append_right _ ?_
              simp [autoRow, preReadTypes]
          rcases List.mem_cons.mp hx with hx1 | hx2
          · subst hx1
            exact runAutoSteps_preRead_mono uu uu now rest ts (nextId + 1) _
              (hpre ty (Or.inr rfl))
          · exact runAutoSteps_types_complete uu now rest ts (nextId + 1) _
              (fun y hy => hnames y (List.mem_cons_of_mem _ hy))
              (fun t ht => hpre t (Or.inl (hts t ht))) x hx2 hcond
    · rw [if_neg hg]
      rcases List.mem_cons.mp hx with hx1 | hx2
      · subst hx1
        simp only at hcond
        have hcont : ty ∈ ts := by
          rw [hcond] at hg
          revert hg
          cases h : ts.contains ty
          · intro hg
            simp [h] at hg
          · intro _
            simpa using h
        exact runAutoSteps_preRead_mono uu uu now rest ts nextId db (hts _ hcont)
      · exact runAutoSteps_types_complete uu now rest ts nextId db
          (fun y hy => hnames y (List.mem_cons_of_mem _ hy)) hts x hx2 hcond

/-- When every crossed threshold's type key is already in the pre-read
set, the whole write sequence is a no-op. -/
lemma runAutoSteps_all_present (uu : String) (now : Nat) :
    ∀ (specs : List (Bool × String × String × String)) (ts : List String)
      (nextId : Nat) (db : List MilestoneRow),
      (∀ x ∈ specs, x.1 = true → x.2.1 ∈ ts) →
      runAutoSteps uu ts now specs nextId db = db
  | [], ts, nextId, db => by
    intro _
    rw [runAutoSteps]
  | (cond, ty, nm, ds) :: rest, ts, nextId, db => by
    intro h
    rw [runAutoSteps]
    have hg : (cond && !ts.contains ty) = false := by
      cases hcond : cond
      · simp
      · have hmem2 : ty ∈ ts := by
          have := h (cond, ty, nm, ds) (List.mem_cons_self _ _) (by rw [hcond])
          simpa using this
        simp [hmem2]
    rw [hg]
    simp only [Bool.false_eq_true, if_false]
    exact runAutoSteps_all_present uu now rest ts nextId db
      (fun y hy => h y (List.mem_cons_of_mem _ hy))

lemma autoMilestoneSpecs_names (checkInStreak journalCount : Nat) :
    ∀ x ∈ autoMilestoneSpecs checkInStreak journalCount, x.2.1 ≠ "" ∧ x.2.2.1 ≠ "" := by
  intro x hx
  simp only [autoMilestoneSpecs, List.mem_cons, List.not_mem_nil, or_false] at hx
  rcases hx with h | h | h | h | h | h <;> subst h <;>
    exact ⟨by simp, by simp⟩

/-- C5 counterexample: two invocations of `checkAndCreateAutoMilestones`
for a user at streak 7 whose pre-reads both happen before either write —
the interleaving concurrent turns permit, since the `milestones` table
has no uniqueness constraint on `(user_id, type)` — leave TWO rows with
type key `check_in_streak_7`, not exactly one as the claim states. -/
theorem C5_concurrent_duplicate_counterexample :
    ((twoConcurrentAutoRuns "u" 7 0 5 []).filter
        (fun r => r.type == "check_in_streak_7")).length = 2 := by decide

/-- C5 (amended): `checkAndCreateAutoMilestones` is idempotent under
*sequential* repetition — a second invocation, whose pre-read sees the
first invocation's rows, changes nothing, so two sequential runs at
streak ≥ 7 leave exactly one `check_in_streak_7` row.  The guarantee
rests on the pre-read alone: the schema has no uniqueness constraint on
`(user_id, type)`, and the pre-read-then-insert race of two concurrent
invocations can duplicate rows (see the counterexample). -/
theorem C5_auto_milestones_sequentially_idempotent :
    (∀ (userId : String) (streak journalCount i1 i2 n1 n2 : Nat) (db : List MilestoneRow),
      checkAndCreateAutoMilestones userId streak journalCount i2 n2
          (checkAndCreateAutoMilestones userId streak journalCount i1 n1 db) =
        checkAndCreateAutoMilestones userId streak journalCount i1 n1 db) ∧
    ((checkAndCreateAutoMilestones "u" 7 0 1 5 []).filter
        (fun r => r.type == "check_in_streak_7")).length = 1 ∧
    ((checkAndCreateAutoMilestones "u" 7 0 101 6
        (checkAndCreateAutoMilestones "u" 7 0 1 5 [])).filter
        (fun r => r.type == "check_in_streak_7")).length = 1 := by
  refine ⟨?_, by decide, by decide⟩
  intro userId streak journalCount i1 i2 n1 n2 db
  simp only [checkAndCreateAutoMilestones]
  apply runAutoSteps_all_present
  intro x hx hcond
  exact runAutoSteps_types_complete userId n1
    (autoMilestoneSpecs streak journalCount) (preReadTypes db userId) i1 db
    (autoMilestoneSpecs_names streak journalCount) (fun t ht => ht) x hx hcond

/-- The milestone invariant of the data model: an unlocked row has
progress 100 and a set unlock timestamp. -/
def unlockedInvariant (r : MilestoneRow) : Prop :=
  r.unlocked = true → r.progress = 100 ∧ r.unlocked_at.isSome = true

lemma unlockedInvariant_unlockUpdate (i : Nat) (u : String) (now : Nat)
    (r : MilestoneRow) (h : unlockedInvariant r) :
    unlockedInvariant (unlockUpdate i u now r) := by
  rw [unlockUpdate]
  split
  · intro _
    exact ⟨rfl, rfl⟩
  · exact h

lemma unlockedInvariant_progressUpdate (i : Nat) (u : String) (p : Int) (now : Nat)
    (hp : p ≤ 100) (r : MilestoneRow) (h : unlockedInvariant r) :
    unlockedInvariant (progressUpdate i u p now r) := by
  rw [progressUpdate]
  split
  · intro hu
    have h100 : 100 ≤ p := by simpa using hu
    have hp100 : p = 100 := le_antisymm hp h100
    constructor
    · simpa using hp100
    · simp [if_pos h100]
  · exact h

lemma inv_createMilestone (userId : String) (d : MilestoneData) (newId now : Nat)
    (db : List MilestoneRow) (row : MilestoneRow) (db' : List MilestoneRow)
    (hok : createMilestone userId d newId now db = .ok (row, db'))
    (hdb : ∀ r ∈ db, unlockedInvariant r) : ∀ r ∈ db', unlockedInvariant r := by
  obtain ⟨hdb', hunl, -, -, -, -⟩ := createMilestone_ok _ _ _ _ _ _ _ hok
  subst hdb'
  intro r hr
  rcases List.mem_append.mp hr with h | h
  · exact hdb r h
  · rw [List.mem_singleton.mp h]
    intro hu
    rw [hunl] at hu
    cases hu

lemma inv_unlockMilestone (i : Nat) (u : String) (now : Nat)
    (db : List MilestoneRow) (row : MilestoneRow) (db' : List MilestoneRow)
    (hok : unlockMilestone i u now db = .ok (row, db'))
    (hdb : ∀ r ∈ db, unlockedInvariant r) : ∀ r ∈ db', unlockedInvariant r := by
  have hdb' := unlockMilestone_ok_db _ _ _ _ _ _ hok
  subst hdb'
  intro r hr
  obtain ⟨r0, hr0, hr0e⟩ := List.mem_map.mp hr
  rw [← hr0e]
  exact unlockedInvariant_unlockUpdate _ _ _ _ (hdb r0 hr0)

lemma inv_updateMilestoneProgress (i : Nat) (u : String) (p : Int) (now : Nat)
    (db : List MilestoneRow) (row : MilestoneRow) (db' : List MilestoneRow)
    (hok : updateMilestoneProgress i u p now db = .ok (row, db'))
    (hdb : ∀ r ∈ db, unlockedInvariant r) : ∀ r ∈ db', unlockedInvariant r := by
  simp only [updateMilestoneProgress] at hok
  by_cases hv : p < 0 ∨ 100 < p
  · rw [if_pos hv] at hok
    cases hok
  · rw [if_neg hv] at hok
    have hp : p ≤ 100 := by omega
    cases hf : (db.map (progressUpdate i u p now)).find?
        (fun r => decide (r.id = i ∧ r.user_id = u)) with
    | none => rw [hf] at hok; cases hok
    | some r2 =>
      rw [hf] at hok
      rw [Except.ok.injEq, Prod.mk.injEq] at hok
      obtain ⟨-, hdb'⟩ := hok
      subst hdb'
      intro r hr
      obtain ⟨r0, hr0, hr0e⟩ := List.mem_map.mp hr
      rw [← hr0e]
      exact unlockedInvariant_progressUpdate _ _ _ _ hp r0 (hdb r0 hr0)

lemma inv_runAutoSteps (uu : String) (ts : List String) (now : Nat) :
    ∀ (specs : List (Bool × String × String × String)) (nextId : Nat)
      (db : List MilestoneRow),
      (∀ r ∈ db, unlockedInvariant r) →
      ∀ r ∈ runAutoSteps uu ts now specs nextId db, unlockedInvariant r
  | [], nextId, db => by
    intro h
    rw [runAutoSteps]
    exact h
  | (cond, ty, nm, ds) :: rest, nextId, db => by
    intro h
    rw [runAutoSteps]
    split
    · split
      · exact h
      · rename_i row db1 heq
        have h1 := inv_createMilestone _ _ _ _ _ _ _ heq h
        split
        · exact h1
        · rename_i row2 db2 heq2
          have h2 := inv_unlockMilestone _ _ _ _ _ _ heq2 h1
          exact inv_runAutoSteps uu ts now rest (nextId + 1) db2 h2
    · exact inv_runAutoSteps uu ts now rest nextId db h

/-- C6: after every milestone operation — create, progress update,
unlock, auto-creation — every row satisfies `unlocked = true → progress =
100 ∧ unlocked_at set`; newly created rows start locked, so the converse
need not hold (a row may carry progress 100 while still locked). -/
theorem C6_unlocked_implies_complete :
    (∀ (userId : String) (d : MilestoneData) (newId now : Nat)
        (db : List MilestoneRow) (row : MilestoneRow) (db' : List MilestoneRow),
      (∀ r ∈ db, unlockedInvariant r) →
      createMilestone userId d newId now db = .ok (row, db') →
      ∀ r ∈ db', unlockedInvariant r) ∧
    (∀ (i : Nat) (u : String) (p : Int) (now : Nat)
        (db : List MilestoneRow) (row : MilestoneRow) (db' : List MilestoneRow),
      (∀ r ∈ db, unlockedInvariant r) →
      updateMilestoneProgress i u p now db = .ok (row, db') →
      ∀ r ∈ db', unlockedInvariant r) ∧
    (∀ (i : Nat) (u : String) (now : Nat)
        (db : List MilestoneRow) (row : MilestoneRow) (db' : List MilestoneRow),
      (∀ r ∈ db, unlockedInvariant r) →
      unlockMilestone i u now db = .ok (row, db') →
      ∀ r ∈ db', unlockedInvariant r) ∧
    (∀ (userId : String) (streak journalCount nextId now : Nat)
        (db : List MilestoneRow),
      (∀ r ∈ db, unlockedInvariant r) →
      ∀ r ∈ checkAndCreateAutoMilestones userId streak journalCount nextId now db,
        unlockedInvariant r) :=
  ⟨fun _ _ _ _ _ _ _ hdb hok => inv_createMilestone _ _ _ _ _ _ _ hok hdb,
   fun _ _ _ _ _ _ _ hdb hok => inv_updateMilestoneProgress _ _ _ _ _ _ _ hok hdb,
   fun _ _ _ _ _ _ hdb hok => inv_unlockMilestone _ _ _ _ _ _ hok hdb,
   fun userId streak journalCount nextId now db hdb =>
     inv_runAutoSteps userId (preReadTypes db userId) now
       (autoMilestoneSpecs streak journalCount) nextId db hdb⟩

/-- C6 witness: the invariant read off the concrete `check_in_streak_7`
row produced by an auto-milestone run at streak 7 on an empty table. -/
theorem C6_unlocked_implies_complete_witness :
    (unlockUpdate 1 "u" 5 (autoRow "u" "check_in_streak_7" "Week of Consistency"
        "Complete check-ins for 7 consecutive days" 1 5)).progress = 100 ∧
    (unlockUpdate 1 "u" 5 (autoRow "u" "check_in_streak_7" "Week of Consistency"
        "Complete check-ins for 7 consecutive days" 1 5)).unlocked_at.isSome = true :=
  C6_unlocked_implies_complete.2.2.2 "u" 7 0 1 5 [] (by intro r hr; cases hr)
    (unlockUpdate 1 "u" 5 (autoRow "u" "check_in_streak_7" "Week of Consistency"
      "Complete check-ins for 7 consecutive days" 1 5))
    (by decide) rfl

/-! ## Conversation service (`src/unnamed/part_005`)

Each SQL sub-query is modelled as an `Except`-valued outcome of reaching
the store: `.ok db` carries the relevant table, on which the query's
filter / ORDER BY / LIMIT semantics are then computed; `.error` models a
thrown query failure. -/

/-- ORDER BY `created_at` DESC, as a relation on message rows. -/
def msgDesc (a b : Message) : Prop := b.created_at ≤ a.created_at

instance : DecidableRel msgDesc :=
  fun a b => inferInstanceAs (Decidable (b.created_at ≤ a.created_at))

instance : IsTotal Message msgDesc :=
  ⟨fun a b => le_total b.created_at a.created_at⟩

instance : IsTrans Message msgDesc :=
  ⟨fun _ _ _ h1 h2 => le_trans h2 h1⟩

/-- `getRecentMessages` (part_005 lines 144-162): SELECT the
conversation's messages ORDER BY `created_at` DESC LIMIT `limit`, then
`.reverse()` the page into ascending order; a failing query is rethrown
as "Failed to fetch messages". -/
def getRecentMessages (queryResult : Except String (List Message))
    (conversationId : Nat) (limit : Nat) : Except String (List Message) :=
  match queryResult with
  | .error _ => .error "Failed to fetch messages"
  | .ok db =>
      .ok ((((db.filter fun m => decide (m.conversation_id = conversationId)).insertionSort
        msgDesc).take limit).reverse)

/-- The private `getRecentCheckIns` of part_005 (lines 226-241): last
`limit` check-ins by `created_at` DESC; degrades to `[]` on failure. -/
def getRecentCheckInsCtx (queryResult : Except String (List CheckInRow))
    (userId : String) (limit : Nat) : List CheckInRow :=
  match queryResult with
  | .error _ => []
  | .ok db =>
      ((db.filter fun r => decide (r.user_id = userId)).insertionSort
        (fun a b => b.created_at ≤ a.created_at)).take limit

/-- The private `getActiveMilestones` of part_005 (lines 246-261): last 5
milestones by `created_at` DESC; degrades to `[]` on failure. -/
def getActiveMilestonesCtx (queryResult : Except String (List MilestoneRow))
    (userId : String) : List MilestoneRow :=
  match queryResult with
  | .error _ => []
  | .ok db =>
      ((db.filter fun r => decide (r.user_id = userId)).insertionSort
        (fun a b => b.created_at ≤ a.created_at)).take 5

/-- A row of `journal_entries` restricted to the one column the context
builder's COUNT(*) query touches. -/
structure JournalRow where
  user_id : String
deriving DecidableEq

/-- The private `getJournalCount` of part_005 (lines 266-279): COUNT(*) of
the user's journal entries; degrades to 0 on failure. -/
def getJournalCountCtx (queryResult : Except String (List JournalRow))
    (userId : String) : Nat :=
  match queryResult with
  | .error _ => 0
  | .ok db => (db.filter fun r => decide (r.user_id = userId)).length

/-- `ConversationContext` from `types.ts`. -/
structure ConversationContext where
  stage : RecoveryStage
  recentMessages : List Message
  recentCheckIns : List CheckInRow
  activeMilestones : List MilestoneRow
  journalCount : Nat
deriving DecidableEq

/-- `buildConversationContext` (part_005 lines 196-221): aggregates the
four sub-queries.  The three private helpers catch their own failures and
degrade, but `getRecentMessages` rethrows, so its failure reaches the
builder's catch, which throws "Failed to build conversation context". -/
def buildConversationContext (userId : String) (conversationId : Nat)
    (currentStage : RecoveryStage)
    (messagesQ : Except String (List Message))
    (checkInsQ : Except String (List CheckInRow))
    (milestonesQ : Except String (List MilestoneRow))
    (journalQ : Except String (List JournalRow)) :
    Except String ConversationContext :=
  match getRecentMessages messagesQ conversationId 10 with
  | .error _ => .error "Failed to build conversation context"
  | .ok msgs =>
      .ok { stage := currentStage,
            recentMessages := msgs,
            recentCheckIns := getRecentCheckInsCtx checkInsQ userId 3,
            activeMilestones := getActiveMilestonesCtx milestonesQ userId,
            journalCount := getJournalCountCtx journalQ userId }

/-- C8 counterexample: a failing recent-messages sub-query is NOT
degraded — `buildConversationContext` propagates it as the thrown
"Failed to build conversation context" instead of returning a context. -/
theorem C8_messages_failure_propagates :
    buildConversationContext "u" 1 .greeting (.error "store unavailable")
        (.ok []) (.ok []) (.ok []) =
      .error "Failed to build conversation context" := rfl

/-- C8 (amended): the check-in, milestone and journal-count sub-queries
degrade independently to empty/zero results — even all failing at once
still yields a context — but a recent-messages failure aborts the whole
build with "Failed to build conversation context". -/
theorem C8_context_degradation :
    (∀ (userId : String) (conversationId : Nat) (stage : RecoveryStage)
        (rows : List Message) (e1 e2 e3 : String),
      buildConversationContext userId conversationId stage (.ok rows)
          (.error e1) (.error e2) (.error e3) =
        .ok { stage := stage,
              recentMessages := (((rows.filter
                  fun m => decide (m.conversation_id = conversationId)).insertionSort
                    msgDesc).take 10).reverse,
              recentCheckIns := [],
              activeMilestones := [],
              journalCount := 0 }) ∧
    (∀ (userId : String) (conversationId : Nat) (stage : RecoveryStage)
        (em : String) (q2 : Except String (List CheckInRow))
        (q3 : Except String (List MilestoneRow))
        (q4 : Except String (List JournalRow)),
      buildConversationContext userId conversationId stage (.error em) q2 q3 q4 =
        .error "Failed to build conversation context") := by
  constructor
  · intro userId conversationId stage rows e1 e2 e3
    rfl
  · intro userId conversationId stage em q2 q3 q4
    rfl

/-- C9: `getRecentMessages` returns the `limit` most recent messages of
the conversation in ascending `created_at` order: the result is pairwise
ascending (so no two messages come back out of creation order), contains
only rows of the requested conversation, has length `min limit count`,
and is the reversal of a `limit`-prefix of a descending-sorted
arrangement of the conversation's messages in which every message left
out is no newer than every message returned. -/
theorem C9_recent_messages_ascending :
    ∀ (db : List Message) (conversationId n : Nat) (msgs : List Message),
      getRecentMessages (.ok db) conversationId n = .ok msgs →
      msgs.Pairwise (fun a b => a.created_at ≤ b.created_at) ∧
      (∀ m ∈ msgs, m.conversation_id = conversationId) ∧
      msgs.length =
        min n (db.filter fun m => decide (m.conversation_id = conversationId)).length ∧
      (∃ sorted : List Message,
        sorted.Perm (db.filter fun m => decide (m.conversation_id = conversationId)) ∧
        sorted.Pairwise msgDesc ∧
        msgs = (sorted.take n).reverse ∧
        ∀ x ∈ sorted.take n, ∀ y ∈ sorted.drop n, y.created_at ≤ x.created_at) := by
  intro db conversationId n msgs h
  rw [getRecentMessages, Except.ok.injEq] at h
  subst h
  set flt := db.filter fun m => decide (m.conversation_id = conversationId) with hflt
  have hsorted : (flt.insertionSort msgDesc).Pairwise msgDesc :=
    List.sorted_insertionSort msgDesc flt
  have hperm : (flt.insertionSort msgDesc).Perm flt :=
    List.perm_insertionSort msgDesc flt
  refine ⟨?_, ?_, ?_, flt.insertionSort msgDesc, hperm, hsorted, rfl, ?_⟩
  · rw [List.pairwise_reverse]
    exact List.Pairwise.sublist (List.take_sublist n _) hsorted
  · intro m hm
    rw [List.mem_reverse] at hm
    have hmem : m ∈ flt :=
      hperm.mem_iff.mp ((List.take_sublist n _).subset hm)
    have := List.mem_filter.mp hmem
    exact of_decide_eq_true this.2
  · rw [List.length_reverse, List.length_take, hperm.length_eq]
  · have hsplit := hsorted
    rw [← List.take_append_drop n (flt.insertionSort msgDesc)] at hsplit
    exact (List.pairwise_append.mp hsplit).2.2

/-- C9 witness: the ordering theorem applied to a concrete three-message
store with out-of-order timestamps and a second conversation mixed in. -/
theorem C9_recent_messages_ascending_witness :
    getRecentMessages
        (.ok [⟨1, 1, Role.user, "a", 10⟩, ⟨2, 1, Role.assistant, "b", 5⟩,
              ⟨3, 2, Role.user, "c", 7⟩]) 1 2 =
      .ok [⟨2, 1, Role.assistant, "b", 5⟩, ⟨1, 1, Role.user, "a", 10⟩] ∧
    ([⟨2, 1, Role.assistant, "b", 5⟩, ⟨1, 1, Role.user, "a", 10⟩] : List Message).Pairwise
      (fun a b => a.created_at ≤ b.created_at) :=
  ⟨rfl,
   (C9_recent_messages_ascending
      [⟨1, 1, Role.user, "a", 10⟩, ⟨2, 1, Role.assistant, "b", 5⟩, ⟨3, 2, Role.user, "c", 7⟩]
      1 2 _ rfl).1⟩

/-! ## Suggested replies for `milestone_review` (`flow.ts` lines 513-551) -/

/-- Character-list test: does `needle` occur at the head of `hay`? -/
def startsWithCL : List Char → List Char → Bool
  | [], _ => true
  | _ :: _, [] => false
  | a :: as, b :: bs => a == b && startsWithCL as bs

/-- Character-list substring occurrence test. -/
def containsCL (needle : List Char) : List Char → Bool
  | [] => startsWithCL needle []
  | c :: cs => startsWithCL needle (c :: cs) || containsCL needle cs

/-- JS `hay.includes(needle)`. -/
def strIncludes (hay needle : String) : Bool :=
  containsCL needle.toList hay.toList

/-- JS `toLowerCase()`, computed characterwise over the string's data so
that it evaluates by kernel reduction. -/
def toLowerStr (s : String) : String :=
  String.mk (s.toList.map Char.toLower)

/-- `context.recentMessages.filter(assistant).slice(-1)[0]?.content
.toLowerCase() || ""`: the last assistant message lowercased, or "". -/
def lastAssistantContentLower (msgs : List Message) : String :=
  match (msgs.filter fun m => decide (m.role = Role.assistant)).getLast? with
  | some m => toLowerStr m.content
  | none => ""

/-- `SuggestedReply` from `types.ts` (`type` is "quick" or "detailed"). -/
structure SuggestedReply where
  text : String
  type : String
deriving DecidableEq

/-- The `milestone_review` case of `getSuggestedRepliesForStage`
(`flow.ts` lines 513-551): branches on what the last assistant message is
asking about and on whether the context carries any milestones
(`askingAboutNext` is computed but unused in the source too). -/
def getSuggestedRepliesForStage_milestoneReview (context : ConversationContext) :
    List SuggestedReply :=
  let milestoneLastAI := lastAssistantContentLower context.recentMessages
  let askingToShowProgress :=
    strIncludes milestoneLastAI "milestone" || strIncludes milestoneLastAI "progress"
  let askingAboutProud :=
    strIncludes milestoneLastAI "proud" || strIncludes milestoneLastAI "achievement"
  let askingAboutNext :=
    strIncludes milestoneLastAI "next" || strIncludes milestoneLastAI "goal"
  if askingToShowProgress && decide (0 < context.activeMilestones.length) then
    [⟨"Yes, show me my milestones", "quick"⟩,
     ⟨"I\x27d love to see my progress", "quick"⟩,
     ⟨"What have I accomplished?", "detailed"⟩]
  else if askingAboutProud then
    [⟨"I\x27m proud of what I\x27ve achieved", "detailed"⟩,
     ⟨"I\x27m proud of staying consistent", "quick"⟩,
     ⟨"I\x27m proud of not giving up", "detailed"⟩]
  else if 0 < context.activeMilestones.length then
    [⟨"Show me my progress", "quick"⟩,
     ⟨"I\x27m proud of what I\x27ve achieved", "detailed"⟩,
     ⟨"What should I work on next?", "detailed"⟩,
     ⟨"Let\x27s do another check-in", "quick"⟩]
  else
    [⟨"Help me set my first goal", "quick"⟩,
     ⟨"What milestones can I track?", "detailed"⟩,
     ⟨"I\x27m ready to start tracking progress", "detailed"⟩]

/-- C7 counterexample: a `milestone_review` context with one milestone
whose last assistant message mentions "proud" — the claim requires "Show
me my progress" among the suggestions, but the proud branch returns a
list without it. -/
theorem C7_show_progress_counterexample :
    0 < (ConversationContext.mk .milestone_review
        [⟨1, 1, Role.assistant, "You should be proud", 1⟩] []
        [⟨1, "u", "first_check_in", "First Steps", none, 100, false, none, 1⟩]
        0).activeMilestones.length ∧
    ((getSuggestedRepliesForStage_milestoneReview
        (ConversationContext.mk .milestone_review
          [⟨1, 1, Role.assistant, "You should be proud", 1⟩] []
          [⟨1, "u", "first_check_in", "First Steps", none, 100, false, none, 1⟩]
          0)).map (·.text)).contains "Show me my progress" = false := by
  constructor
  · decide
  · decide

/-- C7 (amended): with zero milestones the `milestone_review` suggestions
never contain "Show me my progress", for every message window; with at
least one milestone they contain it exactly when neither the
progress-review branch nor the proud branch fires — in particular
whenever the last assistant message mentions none of "milestone",
"progress", "proud", "achievement" (e.g. when there is none). -/
theorem C7_milestone_review_replies :
    (∀ ctx : ConversationContext, ctx.activeMilestones.length = 0 →
      ¬ "Show me my progress" ∈
        (getSuggestedRepliesForStage_milestoneReview ctx).map (·.text)) ∧
    (∀ ctx : ConversationContext, 0 < ctx.activeMilestones.length →
      strIncludes (lastAssistantContentLower ctx.recentMessages) "milestone" = false →
      strIncludes (lastAssistantContentLower ctx.recentMessages) "progress" = false →
      strIncludes (lastAssistantContentLower ctx.recentMessages) "proud" = false →
      strIncludes (lastAssistantContentLower ctx.recentMessages) "achievement" = false →
      "Show me my progress" ∈
        (getSuggestedRepliesForStage_milestoneReview ctx).map (·.text)) := by
  constructor
  · intro ctx hlen
    simp only [getSuggestedRepliesForStage_milestoneReview, hlen]
    rw [if_neg (by simp)]
    split
    · decide
    · rw [if_neg (by simp)]
      decide
  · intro ctx hlen h1 h2 h3 h4
    simp only [getSuggestedRepliesForStage_milestoneReview]
    rw [if_neg (by simp [h1, h2])]
    rw [if_neg (by simp [h3, h4])]
    rw [if_pos hlen]
    decide

/-- C7 witness: the amended theorem applied to two concrete contexts —
one with no milestones, one with a milestone and no assistant message. -/
theorem C7_milestone_review_replies_witness :
    (¬ "Show me my progress" ∈
      (getSuggestedRepliesForStage_milestoneReview
        (ConversationContext.mk .milestone_review [] [] [] 0)).map (·.text)) ∧
    "Show me my progress" ∈
      (getSuggestedRepliesForStage_milestoneReview
        (ConversationContext.mk .milestone_review [] []
          [⟨1, "u", "first_check_in", "First Steps", none, 100, false, none, 1⟩]
          0)).map (·.text) :=
  ⟨C7_milestone_review_replies.1 (ConversationContext.mk .milestone_review [] [] [] 0) rfl,
   C7_milestone_review_replies.2
     (ConversationContext.mk .milestone_review [] []
       [⟨1, "u", "first_check_in", "First Steps", none, 100, false, none, 1⟩] 0)
     (by decide) rfl rfl rfl rfl⟩

/-! ## `parseCheckInFromText` (`src/unnamed/part_004`, lines 187-214)

The source scrapes the lowercased text with four regexes.  Their
character classes are embedded directly: `[:\s]` as colon-or-whitespace,
`[a-z]` as lowercase ASCII letters, `\d` as ASCII digits.  Because each
class is disjoint from the one that follows it in the pattern, greedy
matching without backtracking is exact, and the scanners below implement
the regexes' leftmost-match semantics position by position. -/

/-- The `[:\s]` class. -/
def isColonSpace (c : Char) : Bool := c == ':' || c.isWhitespace

/-- The `[a-z]` class. -/
def isLowerAlpha (c : Char) : Bool := 'a' ≤ c && c ≤ 'z'

/-- The `\d` class, via code points (48-57). -/
def isDigitCh (c : Char) : Bool := 48 ≤ c.toNat && c.toNat ≤ 57

/-- JS `parseInt` on a single digit character. -/
def digitVal (c : Char) : Nat := c.toNat - 48

/-- Try `key[:\s]+([a-z]+)` at the head of `s`, returning the captured
letter run. -/
def matchKeyWordAt (key s : List Char) : Option (List Char) :=
  if startsWithCL key s then
    let pr := (s.drop key.length).span isColonSpace
    if pr.1.isEmpty then none
    else
      let wr := pr.2.span isLowerAlpha
      if wr.1.isEmpty then none else some wr.1
  else none

/-- Try `key[:\s]+(\d)` at the head of `s`, returning the captured digit. -/
def matchKeyDigitAt (key s : List Char) : Option Char :=
  if startsWithCL key s then
    let pr := (s.drop key.length).span isColonSpace
    if pr.1.isEmpty then none
    else
      match pr.2 with
      | c :: _ => if isDigitCh c then some c else none
      | [] => none
  else none

/-- Leftmost match of `key[:\s]+(\d)` over the text. -/
def findKeyDigit (key : List Char) : List Char → Option Char
  | [] => matchKeyDigitAt key []
  | c :: cs =>
    match matchKeyDigitAt key (c :: cs) with
    | some d => some d
    | none => findKeyDigit key cs

/-- One position of `mood[:\s]+([a-z]+)|feeling[:\s]+([a-z]+)|feel[:\s]+([a-z]+)`,
alternatives tried left to right. -/
def matchMoodAt (s : List Char) : Option (List Char) :=
  match matchKeyWordAt ("mood".toList) s with
  | some w => some w
  | none =>
    match matchKeyWordAt ("feeling".toList) s with
    | some w => some w
    | none => matchKeyWordAt ("feel".toList) s

/-- Leftmost match of the mood regex. -/
def findMood : List Char → Option (List Char)
  | [] => matchMoodAt []
  | c :: cs =>
    match matchMoodAt (c :: cs) with
    | some w => some w
    | none => findMood cs

/-- The lazy group of `(.+?)(?:\.|$)`: the shortest non-empty run of
non-newline characters whose continuation starts with a period or is the
end of the text. -/
def lazyCaptureCL : List Char → Option (List Char)
  | [] => none
  | c :: cs =>
    if c == '\n' then none
    else
      match cs with
      | [] => some [c]
      | d :: _ =>
        if d == '.' then some [c]
        else (lazyCaptureCL cs).map (c :: ·)

/-- Try `key[:\s]+(.+?)(?:\.|$)` at the head of `s`. -/
def matchIntentionsAt (key s : List Char) : Option (List Char) :=
  if startsWithCL key s then
    let pr := (s.drop key.length).span isColonSpace
    if pr.1.isEmpty then none else lazyCaptureCL pr.2
  else none

/-- Leftmost match of `(?:intention|goal|plan)[:\s]+(.+?)(?:\.|$)`. -/
def findIntentions : List Char → Option (List Char)
  | [] => none
  | c :: cs =>
    match matchIntentionsAt ("intention".toList) (c :: cs) with
    | some w => some w
    | none =>
      match matchIntentionsAt ("goal".toList) (c :: cs) with
      | some w => some w
      | none =>
        match matchIntentionsAt ("plan".toList) (c :: cs) with
        | some w => some w
        | none => findIntentions cs

/-- JS `.trim()`, computed characterwise. -/
def trimStr (s : String) : String :=
  String.mk (((s.toList.dropWhile Char.isWhitespace).reverse.dropWhile
    Char.isWhitespace).reverse)

/-- `parseCheckInFromText` (part_004 lines 187-214): scrapes mood, a
single-digit sleep quality and energy level, and an optional intentions
clause from the lowercased text.  JS truthiness makes a parsed digit 0
fall through to `null`, and empty/missing intentions fall back to the
placeholder "No specific intentions set".  `assembleCheckIn` is the
truthiness-guarded construction of the source's return object;
`parseCheckInFromText` runs the four regex scans and feeds it. -/
def assembleCheckIn (m : List Char) (sd ed : Char) (intentionsRaw : String) :
    Option CheckInData :=
  let mood := String.mk m
  let sleepQuality : Int := digitVal sd
  let energyLevel : Int := digitVal ed
  if mood ≠ "" ∧ sleepQuality ≠ 0 ∧ energyLevel ≠ 0 then
    some { mood := mood, sleepQuality := sleepQuality, energyLevel := energyLevel,
           intentions :=
             if intentionsRaw = "" then "No specific intentions set" else intentionsRaw }
  else none

def parseCheckInFromText (text : String) : Option CheckInData :=
  let lower := text.toList.map Char.toLower
  let intentionsRaw :=
    match findIntentions lower with
    | some g => trimStr (String.mk g)
    | none => ""
  match findMood lower, findKeyDigit ("sleep".toList) lower,
      findKeyDigit ("energy".toList) lower with
  | some m, some sd, some ed => assembleCheckIn m sd ed intentionsRaw
  | _, _, _ => none

lemma matchKeyDigitAt_isDigit (key s : List Char) (c : Char)
    (h : matchKeyDigitAt key s = some c) : isDigitCh c = true := by
  simp only [matchKeyDigitAt] at h
  split at h
  · split at h
    · cases h
    · split at h
      · split at h
        · rename_i hd
          cases h
          exact hd
        · cases h
      · cases h
  · cases h

lemma findKeyDigit_isDigit (key : List Char) :
    ∀ (l : List Char) (c : Char), findKeyDigit key l = some c → isDigitCh c = true
  | [], c, h => by
    rw [findKeyDigit] at h
    exact matchKeyDigitAt_isDigit key [] c h
  | x :: xs, c, h => by
    rw [findKeyDigit] at h
    cases hm : matchKeyDigitAt key (x :: xs) with
    | some d =>
      rw [hm] at h
      cases h
      exact matchKeyDigitAt_isDigit _ _ _ hm
    | none =>
      rw [hm] at h
      exact findKeyDigit_isDigit key xs c h

lemma digitVal_le_nine (c : Char) (h : isDigitCh c = true) : digitVal c ≤ 9 := by
  simp only [isDigitCh, Bool.and_eq_true, decide_eq_true_eq] at h
  rw [digitVal]
  omega

lemma mkString_ne_empty (w : List Char) (h : w ≠ []) : String.mk w ≠ "" := by
  intro hc
  apply h
  simpa using congrArg String.toList hc

/-- C10: whenever `parseCheckInFromText` returns a result, its mood and
intentions are non-empty (intentions defaulting to the placeholder) and
its sleep/energy values are single-digit integers in [1,9]; in
particular, the concrete text "Mood: calm sleep: 9 energy: 3" parses to
sleep quality 9 > 5, which `createCheckIn`'s [1,5] validation rejects. -/
theorem C10_parse_check_in_range :
    (∀ (text : String) (r : CheckInData),
      parseCheckInFromText text = some r →
      r.mood ≠ "" ∧ r.intentions ≠ "" ∧
      1 ≤ r.sleepQuality ∧ r.sleepQuality ≤ 9 ∧
      1 ≤ r.energyLevel ∧ r.energyLevel ≤ 9) ∧
    parseCheckInFromText "Mood: calm sleep: 9 energy: 3" =
      some { mood := "calm", sleepQuality := 9, energyLevel := 3,
             intentions := "No specific intentions set" } ∧
    ((5 : Int) < 9 ∧
      createCheckIn "u"
        { mood := "calm", sleepQuality := 9, energyLevel := 3,
          intentions := "No specific intentions set" } 1 0 [] =
      .error "Invalid check-in data. Mood, sleep quality (1-5), and energy level (1-5) are required.") := by
  refine ⟨?_, by decide, by decide, by rfl⟩
  intro text r h
  simp only [parseCheckInFromText] at h
  cases hm : findMood (text.toList.map Char.toLower) with
  | none =>
    rw [hm] at h
    simp at h
  | some m =>
    cases hs : findKeyDigit ("sleep".toList) (text.toList.map Char.toLower) with
    | none =>
      rw [hm, hs] at h
      simp at h
    | some sd =>
      cases he : findKeyDigit ("energy".toList) (text.toList.map Char.toLower) with
      | none =>
        rw [hm, hs, he] at h
        simp at h
      | some ed =>
        rw [hm, hs, he] at h
        simp only at h
        have hsd9 : digitVal sd ≤ 9 :=
          digitVal_le_nine sd (findKeyDigit_isDigit _ _ _ hs)
        have hed9 : digitVal ed ≤ 9 :=
          digitVal_le_nine ed (findKeyDigit_isDigit _ _ _ he)
        rw [assembleCheckIn] at h
        split at h
        · rename_i hcond
          obtain ⟨hm0, hs0, he0⟩ := hcond
          cases h
          dsimp only
          refine ⟨hm0, ?_, by omega, by simpa using hsd9, by omega, by simpa using hed9⟩
          split
          · decide
          · rename_i hraw
            exact hraw
        · cases h

/-- C10 witness: the range theorem applied to the concrete parse of
"Mood: calm sleep: 9 energy: 3". -/
theorem C10_parse_check_in_range_witness :
    ("calm" : String) ≠ "" ∧ ("No specific intentions set" : String) ≠ "" ∧
    (1 : Int) ≤ 9 ∧ (9 : Int) ≤ 9 ∧ (1 : Int) ≤ 3 ∧ (3 : Int) ≤ 9 :=
  C10_parse_check_in_range.1 "Mood: calm sleep: 9 energy: 3"
    { mood := "calm", sleepQuality := 9, energyLevel := 3,
      intentions := "No specific intentions set" } (by decide)
